import Mathlib

/-!
Verification of the organism simulation core (`src/organism.rs`).

Modelling conventions:
* `f64`/`f32` values (square positions, rates, metabolism) are embedded as
  exact rationals `ℚ`; floating-point literals such as `0.1` become `1/10`.
* `isize` values are embedded as `ℤ`; Rust's `as isize` casts of floats
  (truncation toward zero) become `truncQ`; Rust's `isize` division
  (truncation toward zero) becomes `Int.tdiv`.
* `nalgebra::Vector2<f64>` becomes a pair of rationals, `Vector2<isize>` a
  pair of integers.
* `diff.magnitude() < 1.5` is encoded as the squared comparison
  `dx*dx + dy*dy < 9/4`, which is equivalent over the exact reals (proved
  below against the `Real.sqrt` formulation).
* Randomness (`rand::thread_rng`) is an explicit input: a `FrameRand` record
  carries the draws one call of `next_frame` makes; perturbation draws for
  `mutate` are a function from (body index, square index) to a pair of
  rationals.
* A Rust `panic!` (out-of-bounds index) is modelled by `Option`: `none`
  means the call panics.
-/

/-- Embedding of `BodySquare`: one body cell at a continuous 2-D position. -/
structure BodySquare where
  x : ℚ
  y : ℚ
deriving DecidableEq, Repr

/-- Embedding of `Body`: an ordered list of body squares. -/
structure Body where
  squares : List BodySquare
deriving DecidableEq, Repr, Inhabited

/-- Truncation of a rational toward zero, the semantics of Rust's
`as isize` cast on a float. -/
def truncQ (q : ℚ) : ℤ :=
  if 0 ≤ q then ⌊q⌋ else ⌈q⌉

/-- Embedding of `Body::is_adjacent`: some existing square is at Euclidean
distance < 1.5; encoded via squared distance < 9/4 (exact-real equivalent). -/
def Body.is_adjacent (b : Body) (square : BodySquare) : Bool :=
  b.squares.any (fun existing_square =>
    let dx := square.x - existing_square.x
    let dy := square.y - existing_square.y
    decide (dx * dx + dy * dy < (9 : ℚ) / 4))

/-- Embedding of `Body::check_blueprint_validity`: every proposed square is
adjacent to this body (the Rust loop returns `false` on the first failure,
which is `List.all`). -/
def Body.check_blueprint_validity (b : Body) (proposed_squares : List BodySquare) : Bool :=
  proposed_squares.all (fun square => b.is_adjacent square)

/-- Embedding of the `AttributeType` enum. -/
inductive AttributeType where
  | maxEnergy (value : ℤ)
  | maxAge (value : ℤ)
  | maxSize (value : ℤ)
  | reproductionRate (value : ℚ)
  | mutationRate (value : ℚ)
  | pubertyAge (value : ℤ)
  | bodyStates (value : List Body)
  | metabolism (value : ℚ)
deriving DecidableEq, Repr

/-- Embedding of the `Attribute` struct. -/
structure Attribute where
  max_energy : ℤ
  max_age : ℤ
  max_size : ℤ
  reproduction_rate : ℚ
  mutation_rate : ℚ
  puberty_age : ℤ
  body_states : List Body
  metabolism : ℚ
deriving DecidableEq, Repr

/-- Embedding of `Attribute::default_attributes`. -/
def Attribute.default_attributes : Attribute :=
  { max_energy := 1000
    max_age := 1000
    max_size := 1000
    reproduction_rate := 1 / 10
    mutation_rate := 1 / 10
    puberty_age := 100
    body_states := []
    metabolism := 1 / 10 }

/-- Embedding of the `Gene` struct. -/
structure Gene where
  id : ℤ
  name : String
  value : ℤ
  attribute_type : AttributeType
deriving DecidableEq, Repr

/-- Embedding of the `Genome` struct. -/
structure Genome where
  genes : List Gene
deriving DecidableEq, Repr

/-- Embedding of the `Organism` struct. -/
structure Organism where
  id : ℤ
  genome : Genome
  energy : ℤ
  age : ℤ
  location : ℤ × ℤ
  body_squares : Body
  current_body_state : ℤ
  attributes : Attribute
deriving DecidableEq, Repr

/-- Embedding of the `OrganismState` enum. -/
inductive OrganismState where
  | alive
  | dead
deriving DecidableEq, Repr

/-- One arm of the `match` in `Organism::apply_gene_effects`: fold a single
gene's effect onto an attribute set. -/
def applyGene (a : Attribute) (gene : Gene) : Attribute :=
  match gene.attribute_type with
  | .maxEnergy value => { a with max_energy := a.max_energy + value }
  | .maxAge value => { a with max_age := a.max_age + value }
  | .maxSize value => { a with max_size := a.max_size + value }
  | .reproductionRate value => { a with reproduction_rate := a.reproduction_rate + value }
  | .mutationRate value => { a with mutation_rate := a.mutation_rate + value }
  | .pubertyAge value => { a with puberty_age := a.puberty_age + value }
  | .bodyStates value => { a with body_states := a.body_states ++ value }
  | .metabolism value => { a with metabolism := a.metabolism + value }

/-- Embedding of `Organism::apply_gene_effects` at the attribute level:
left-to-right fold of every gene of the genome onto the attribute set. -/
def apply_gene_effects (a : Attribute) (genome : Genome) : Attribute :=
  genome.genes.foldl applyGene a

/-- Embedding of `Organism::calculate_movement`: zip the two square lists
(truncating to the shorter), accumulate the per-pair deltas with each
coordinate truncated toward zero, then scale by the factor -2. -/
def calculate_movement (current_body new_body : Body) : ℤ × ℤ :=
  let movement := (current_body.squares.zip new_body.squares).foldl
    (fun acc p =>
      (acc.1 + truncQ (p.2.x - p.1.x), acc.2 + truncQ (p.2.y - p.1.y)))
    (0, 0)
  (-2 * movement.1, -2 * movement.2)

/-- Embedding of the body of `Organism::mutate`: rebuild every body of a
body-state list, adding the perturbation `p i j` to square `j` of body `i`
(the Rust code draws each component uniformly from [-1.0, 1.0)). -/
def mutate_states (p : ℕ → ℕ → ℚ × ℚ) (states : List Body) : List Body :=
  states.mapIdx (fun i b =>
    { squares := b.squares.mapIdx (fun j square =>
        { x := square.x + (p i j).1, y := square.y + (p i j).2 }) })

/-- Embedding of `Organism::mutate`: replace the attribute body-state list
with the freshly perturbed one; nothing else changes. -/
def Organism.mutate (org : Organism) (p : ℕ → ℕ → ℚ × ℚ) : Organism :=
  { org with attributes :=
      { org.attributes with body_states := mutate_states p org.attributes.body_states } }

/-- Embedding of `Organism::new`. The Rust code reads
`attributes.body_states[0]` from the freshly defaulted attributes — whose
`body_states` is the empty list — before `apply_gene_effects` runs, so the
index panics (`none`) on that empty list. -/
def Organism.new (id : ℤ) (genome : Genome) : Option Organism :=
  let attributes := Attribute.default_attributes
  match attributes.body_states with
  | [] => none
  | body :: _ =>
    let organism : Organism :=
      { id := id
        genome := genome
        energy := 1000
        age := 0
        location := (0, 0)
        body_squares := body
        current_body_state := 0
        attributes := attributes }
    some { organism with attributes := apply_gene_effects organism.attributes organism.genome }

/-- Embedding of `Organism::reproduce`. `ox`, `oy` are the location-offset
draws (`gen_range(-1..1)`, hence in {-1, 0}); `p` is the offspring's own
perturbation draw used by its `mutate` call. -/
def Organism.reproduce (org : Organism) (ox oy : ℤ) (p : ℕ → ℕ → ℚ × ℚ) : Organism :=
  let offspring : Organism :=
    { id := org.id
      genome := org.genome
      energy := Int.tdiv org.energy 2
      age := 0
      location := (org.location.1 + ox, org.location.2 + oy)
      body_squares := org.body_squares
      current_body_state := 0
      attributes := org.attributes }
  offspring.mutate p

/-- The random draws one call of `Organism::next_frame` makes, made explicit. -/
structure FrameRand where
  mut_roll : ℚ
  rep_roll : ℚ
  self_perturb : ℕ → ℕ → ℚ × ℚ
  off_ox : ℤ
  off_oy : ℤ
  off_perturb : ℕ → ℕ → ℚ × ℚ

/-- The ranges the Rust RNG guarantees for the draws of one frame. -/
def FrameRand.Valid (rnd : FrameRand) : Prop :=
  0 ≤ rnd.mut_roll ∧ rnd.mut_roll < 1 ∧
  0 ≤ rnd.rep_roll ∧ rnd.rep_roll < 1 ∧
  (rnd.off_ox = -1 ∨ rnd.off_ox = 0) ∧
  (rnd.off_oy = -1 ∨ rnd.off_oy = 0)

/-- Embedding of `body_states.get(current_body_state as usize)` with the
`None => &body_states[0]` fallback of `next_frame`. A negative `isize` cast
`as usize` wraps to a huge value, so it is out of range like any index
≥ the length; the fallback `[0]` panics (`none`) iff the list is empty. -/
def body_state_lookup (states : List Body) (i : ℤ) : Option Body :=
  if 0 ≤ i ∧ i.toNat < states.length then states[i.toNat]? else states[0]?

/-- The unconditional opening of `next_frame` (lines 202-219 of the source):
movement, body-state cycling, and the metabolism energy drain. -/
def move_phase (org : Organism) : Option Organism :=
  match body_state_lookup org.attributes.body_states org.current_body_state with
  | none => none
  | some next_body =>
    let ds := calculate_movement org.body_squares next_body
    some { org with
      location := (org.location.1 + ds.1, org.location.2 + ds.2)
      current_body_state :=
        if org.current_body_state < (org.attributes.body_states.length : ℤ) - 1 then
          org.current_body_state + 1
        else 0
      energy := org.energy -
        truncQ (org.attributes.metabolism * (org.body_squares.squares.length : ℚ)) }

/-- The mutation roll of `next_frame`: mutate iff the uniform draw is
strictly below the mutation rate. -/
def mutation_phase (org : Organism) (rnd : FrameRand) : Organism :=
  if rnd.mut_roll < org.attributes.mutation_rate then org.mutate rnd.self_perturb else org

/-- The remainder of `next_frame` after the unconditional opening (lines
221-255 of the source): starvation check, aging, old-age check, mutation
roll, reproduction roll, offspring construction, validity gate, result.
This part never panics, so it is a total function. -/
def frame_rest (org1 : Organism) (rnd : FrameRand) :
    Organism × OrganismState × Option Organism :=
  if org1.energy ≤ 0 then (org1, OrganismState.dead, none)
  else
    let org2 := { org1 with age := org1.age + 1 }
    if org2.age ≥ org2.attributes.max_age then (org2, OrganismState.dead, none)
    else
      let org3 := mutation_phase org2 rnd
      let offspring := org3.reproduce rnd.off_ox rnd.off_oy rnd.off_perturb
      if rnd.rep_roll < org3.attributes.reproduction_rate then
        let org4 := { org3 with energy := org3.energy - offspring.energy }
        if offspring.attributes.body_states.all
            (fun b => org4.body_squares.check_blueprint_validity b.squares) then
          (org4, OrganismState.alive, some offspring)
        else
          (org4, OrganismState.alive, none)
      else
        (org3, OrganismState.alive, none)

/-- Embedding of `Organism::next_frame`. Returns the updated organism (the
Rust method mutates `self` in place) together with the reported state and the
optional offspring; `none` models the panic on an empty body-state list. -/
def Organism.next_frame (org : Organism) (rnd : FrameRand) :
    Option (Organism × OrganismState × Option Organism) :=
  (move_phase org).map (fun org1 => frame_rest org1 rnd)

/-- The metabolism drain subtracted from energy in one frame. -/
def drain (org : Organism) : ℤ :=
  truncQ (org.attributes.metabolism * (org.body_squares.squares.length : ℚ))

/-- The fields of an organism `next_frame` never touches: identity, genome,
current body geometry, and every scalar attribute. -/
def core_unchanged (org org' : Organism) : Prop :=
  org'.id = org.id ∧
  org'.genome = org.genome ∧
  org'.body_squares = org.body_squares ∧
  org'.attributes.max_energy = org.attributes.max_energy ∧
  org'.attributes.max_age = org.attributes.max_age ∧
  org'.attributes.max_size = org.attributes.max_size ∧
  org'.attributes.reproduction_rate = org.attributes.reproduction_rate ∧
  org'.attributes.mutation_rate = org.attributes.mutation_rate ∧
  org'.attributes.puberty_age = org.attributes.puberty_age ∧
  org'.attributes.metabolism = org.attributes.metabolism

/-- The body-state entry the movement step uses, as a total function on a
non-empty list: the entry at the index when it is in range, else the
fallback entry `body_states[0]` (`headI` is that first entry). -/
def body_state_used (states : List Body) (i : ℤ) : Body :=
  if h : 0 ≤ i ∧ i.toNat < states.length then states.get ⟨i.toNat, h.2⟩ else states.headI

/-- The organism after the unconditional opening of `next_frame`: location
moved, body-state index cycled, metabolism drained. -/
def after_move (org : Organism) : Organism :=
  { org with
    location := (org.location.1 + (calculate_movement org.body_squares
        (body_state_used org.attributes.body_states org.current_body_state)).1,
      org.location.2 + (calculate_movement org.body_squares
        (body_state_used org.attributes.body_states org.current_body_state)).2)
    current_body_state :=
      if org.current_body_state < (org.attributes.body_states.length : ℤ) - 1 then
        org.current_body_state + 1
      else 0
    energy := org.energy - drain org }

/-- The candidate offspring `next_frame` builds (after movement, drain,
aging and the mutation roll, `self.reproduce()` is called unconditionally). -/
def frame_candidate (org : Organism) (rnd : FrameRand) : Organism :=
  (mutation_phase { after_move org with age := (after_move org).age + 1 } rnd).reproduce
    rnd.off_ox rnd.off_oy rnd.off_perturb

/-- Projection of a frame result onto the reported state and offspring. -/
def frame_verdict (r : Option (Organism × OrganismState × Option Organism)) :
    Option (OrganismState × Option Organism) :=
  r.map (fun result => result.2)

/-- Projection of a frame result onto the organism's energy afterwards. -/
def frame_energy (r : Option (Organism × OrganismState × Option Organism)) : Option ℤ :=
  r.map (fun result => result.1.energy)

/-- The delta a gene contributes to `max_energy` (0 for other gene kinds). -/
def gene_d_max_energy (g : Gene) : ℤ :=
  match g.attribute_type with
  | .maxEnergy value => value
  | _ => 0

/-- The delta a gene contributes to `max_age`. -/
def gene_d_max_age (g : Gene) : ℤ :=
  match g.attribute_type with
  | .maxAge value => value
  | _ => 0

/-- The delta a gene contributes to `max_size`. -/
def gene_d_max_size (g : Gene) : ℤ :=
  match g.attribute_type with
  | .maxSize value => value
  | _ => 0

/-- The delta a gene contributes to `reproduction_rate`. -/
def gene_d_reproduction_rate (g : Gene) : ℚ :=
  match g.attribute_type with
  | .reproductionRate value => value
  | _ => 0

/-- The delta a gene contributes to `mutation_rate`. -/
def gene_d_mutation_rate (g : Gene) : ℚ :=
  match g.attribute_type with
  | .mutationRate value => value
  | _ => 0

/-- The delta a gene contributes to `puberty_age`. -/
def gene_d_puberty_age (g : Gene) : ℤ :=
  match g.attribute_type with
  | .pubertyAge value => value
  | _ => 0

/-- The delta a gene contributes to `metabolism`. -/
def gene_d_metabolism (g : Gene) : ℚ :=
  match g.attribute_type with
  | .metabolism value => value
  | _ => 0

/-- The body list a gene appends to `body_states` ([] for other kinds). -/
def gene_bodies (g : Gene) : List Body :=
  match g.attribute_type with
  | .bodyStates value => value
  | _ => []

/-- A genome with exactly one gene of each `AttributeType`, carrying the
given deltas. -/
def one_each_genome (dE dA dS dP : ℤ) (dR dM dMet : ℚ) (bs : List Body) : List Gene :=
  [ ⟨0, "max energy", 0, .maxEnergy dE⟩,
    ⟨1, "max age", 0, .maxAge dA⟩,
    ⟨2, "max size", 0, .maxSize dS⟩,
    ⟨3, "reproduction rate", 0, .reproductionRate dR⟩,
    ⟨4, "mutation rate", 0, .mutationRate dM⟩,
    ⟨5, "puberty age", 0, .pubertyAge dP⟩,
    ⟨6, "body states", 0, .bodyStates bs⟩,
    ⟨7, "metabolism", 0, .metabolism dMet⟩ ]

/-- A perturbation draw that moves nothing (each component 0, which lies in
the RNG's range [-1, 1)). -/
def zero_perturb : ℕ → ℕ → ℚ × ℚ :=
  fun _ _ => (0, 0)

/-- Concrete body with one square at the origin. -/
def w_unit_body : Body :=
  ⟨[⟨0, 0⟩]⟩

/-- Concrete body with one square at (1, 0). -/
def w_near_body : Body :=
  ⟨[⟨1, 0⟩]⟩

/-- Concrete body with one square at (10, 10), far from the origin. -/
def w_far_body : Body :=
  ⟨[⟨10, 10⟩]⟩

/-- Concrete organism for evaluating the frame step: one square at the
origin, one body state, no metabolism, no mutation. -/
def w_org : Organism :=
  { id := 1
    genome := ⟨[]⟩
    energy := 100
    age := 0
    location := (0, 0)
    body_squares := w_unit_body
    current_body_state := 0
    attributes :=
      { max_energy := 1000
        max_age := 1000
        max_size := 1000
        reproduction_rate := 1 / 2
        mutation_rate := 0
        puberty_age := 100
        body_states := [w_near_body]
        metabolism := 0 } }

/-- Concrete draws under which `w_org` neither mutates nor reproduces. -/
def w_rnd : FrameRand :=
  { mut_roll := 1 / 2
    rep_roll := 1 / 2
    self_perturb := zero_perturb
    off_ox := 0
    off_oy := -1
    off_perturb := zero_perturb }

/-- Concrete organism whose body-state list cannot connect to its current
body: the candidate offspring always fails the validity gate. -/
def c1_org : Organism :=
  { w_org with attributes := { w_org.attributes with body_states := [w_far_body] } }

/-- Concrete draws under which the reproduction roll passes (0 < 1/2) and
the mutation roll fails. -/
def c1_rnd : FrameRand :=
  { w_rnd with rep_roll := 0 }

/-- Concrete starving organism: zero energy at frame start. -/
def c3_org : Organism :=
  { w_org with energy := 0 }

theorem movement_foldl (l : List (BodySquare × BodySquare)) (a b : ℤ) :
    l.foldl (fun acc p => (acc.1 + truncQ (p.2.x - p.1.x), acc.2 + truncQ (p.2.y - p.1.y)))
        (a, b) =
      (a + (l.map (fun p => truncQ (p.2.x - p.1.x))).sum,
       b + (l.map (fun p => truncQ (p.2.y - p.1.y))).sum) := by
  induction l generalizing a b with
  | nil => simp
  | cons head tail ih =>
    simp only [List.foldl_cons, List.map_cons, List.sum_cons, ih]
    simp [add_assoc]

/-- C2: the claim says construction succeeds whenever the genome contributes
at least one body state; in fact `Organism::new` indexes `body_states[0]` on
the freshly defaulted attributes (whose body-state list is empty) before
`apply_gene_effects` runs, so it panics for every `(id, genome)` input. -/
theorem new_always_panics (id : ℤ) (genome : Genome) :
    Organism.new id genome = none :=
  rfl

/-- C4: `check_blueprint_validity` is true iff every proposed square is at
Euclidean distance strictly below 1.5 from some existing square (stated with
the real square root, proving the squared-distance encoding equivalent); it
is vacuously true on the empty proposal; against a single square at the
origin, a proposed square at distance exactly 1.0 passes and one at distance
exactly 2.0 fails. -/
theorem blueprint_validity_spec :
    (∀ (b : Body) (ps : List BodySquare),
      b.check_blueprint_validity ps = true ↔
        ∀ sq ∈ ps, ∃ ex ∈ b.squares,
          Real.sqrt (((sq.x - ex.x : ℚ) : ℝ) ^ 2 + ((sq.y - ex.y : ℚ) : ℝ) ^ 2) < 3 / 2) ∧
    (∀ b : Body, b.check_blueprint_validity [] = true) ∧
    Body.check_blueprint_validity ⟨[⟨0, 0⟩]⟩ [⟨1, 0⟩] = true ∧
    Body.check_blueprint_validity ⟨[⟨0, 0⟩]⟩ [⟨2, 0⟩] = false := by
  refine ⟨?_, fun b => rfl, ?_, ?_⟩
  · intro b ps
    simp only [Body.check_blueprint_validity, Body.is_adjacent, List.all_eq_true,
      List.any_eq_true, decide_eq_true_eq]
    refine forall_congr' fun sq => imp_congr_right fun hsq => ?_
    refine exists_congr fun ex => and_congr_right fun hex => ?_
    rw [Real.sqrt_lt' (by norm_num : (0 : ℝ) < 3 / 2)]
    rw [show ((3 : ℝ) / 2) ^ 2 = (((9 : ℚ) / 4 : ℚ) : ℝ) by push_cast; norm_num]
    rw [show ((sq.x - ex.x : ℚ) : ℝ) ^ 2 + ((sq.y - ex.y : ℚ) : ℝ) ^ 2
        = (((sq.x - ex.x) * (sq.x - ex.x) + (sq.y - ex.y) * (sq.y - ex.y) : ℚ) : ℝ) by
      push_cast; ring]
    exact Rat.cast_lt.symm
  · norm_num [Body.check_blueprint_validity, Body.is_adjacent]
  · norm_num [Body.check_blueprint_validity, Body.is_adjacent]

/-- C5: `calculate_movement` pairs squares by index (`zip` truncates to the
shorter list), truncates each per-pair delta's coordinates toward zero, sums
the integer vectors, and scales by -2; in particular one square moving from
(0,0) to (1,0) gives displacement (-2, 0). -/
theorem movement_spec :
    (∀ current_body new_body : Body,
      calculate_movement current_body new_body =
        (-2 * ((current_body.squares.zip new_body.squares).map
            (fun p => truncQ (p.2.x - p.1.x))).sum,
         -2 * ((current_body.squares.zip new_body.squares).map
            (fun p => truncQ (p.2.y - p.1.y))).sum)) ∧
    calculate_movement ⟨[⟨0, 0⟩]⟩ ⟨[⟨1, 0⟩]⟩ = (-2, 0) := by
  refine ⟨?_, ?_⟩
  · intro current_body new_body
    unfold calculate_movement
    rw [movement_foldl]
    simp
  · norm_num [calculate_movement, List.zip, truncQ]

/-- C9: `reproduce` copies the parent's id and genome, halves its current
energy (truncated integer division), resets age to 0, offsets the location
by the per-axis draw from {-1, 0}, copies the parent's current body, resets
the body-state index to 0, and clones the attributes changing only the
body-state list, to which its own mutation perturbation is applied. -/
theorem reproduce_fields (org : Organism) (ox oy : ℤ) (p : ℕ → ℕ → ℚ × ℚ)
    (hx : ox = -1 ∨ ox = 0) (hy : oy = -1 ∨ oy = 0) :
    (org.reproduce ox oy p).id = org.id ∧
    (org.reproduce ox oy p).genome = org.genome ∧
    (org.reproduce ox oy p).energy = Int.tdiv org.energy 2 ∧
    (org.reproduce ox oy p).age = 0 ∧
    (org.reproduce ox oy p).location = (org.location.1 + ox, org.location.2 + oy) ∧
    (org.reproduce ox oy p).body_squares = org.body_squares ∧
    (org.reproduce ox oy p).current_body_state = 0 ∧
    (org.reproduce ox oy p).attributes =
      { org.attributes with body_states := mutate_states p org.attributes.body_states } :=
  ⟨rfl, rfl, rfl, rfl, rfl, rfl, rfl, rfl⟩

/-- Witness for C9 at a concrete parent and concrete draws. -/
theorem reproduce_fields_witness :
    (((0 : ℤ) = -1 ∨ (0 : ℤ) = 0) ∧ ((-1 : ℤ) = -1 ∨ (-1 : ℤ) = 0)) ∧
    ((w_org.reproduce 0 (-1) zero_perturb).id = w_org.id ∧
     (w_org.reproduce 0 (-1) zero_perturb).genome = w_org.genome ∧
     (w_org.reproduce 0 (-1) zero_perturb).energy = Int.tdiv w_org.energy 2 ∧
     (w_org.reproduce 0 (-1) zero_perturb).age = 0 ∧
     (w_org.reproduce 0 (-1) zero_perturb).location =
       (w_org.location.1 + 0, w_org.location.2 + -1) ∧
     (w_org.reproduce 0 (-1) zero_perturb).body_squares = w_org.body_squares ∧
     (w_org.reproduce 0 (-1) zero_perturb).current_body_state = 0 ∧
     (w_org.reproduce 0 (-1) zero_perturb).attributes =
       { w_org.attributes with
          body_states := mutate_states zero_perturb w_org.attributes.body_states }) :=
  ⟨⟨Or.inr rfl, Or.inl rfl⟩,
    reproduce_fields w_org 0 (-1) zero_perturb (Or.inr rfl) (Or.inl rfl)⟩

theorem mutation_phase_cases (org : Organism) (rnd : FrameRand) :
    mutation_phase org rnd = org.mutate rnd.self_perturb ∨ mutation_phase org rnd = org := by
  unfold mutation_phase
  split
  · exact Or.inl rfl
  · exact Or.inr rfl

theorem mutation_phase_rate (org : Organism) (rnd : FrameRand) :
    (mutation_phase org rnd).attributes.reproduction_rate =
      org.attributes.reproduction_rate := by
  unfold mutation_phase Organism.mutate
  split <;> rfl

theorem mutation_phase_energy (org : Organism) (rnd : FrameRand) :
    (mutation_phase org rnd).energy = org.energy := by
  unfold mutation_phase Organism.mutate
  split <;> rfl

theorem mutation_phase_age (org : Organism) (rnd : FrameRand) :
    (mutation_phase org rnd).age = org.age := by
  unfold mutation_phase Organism.mutate
  split <;> rfl

theorem mutation_phase_body_squares (org : Organism) (rnd : FrameRand) :
    (mutation_phase org rnd).body_squares = org.body_squares := by
  unfold mutation_phase Organism.mutate
  split <;> rfl

theorem move_phase_eq (org : Organism) (h : org.attributes.body_states ≠ []) :
    move_phase org = some (after_move org) := by
  have hl : body_state_lookup org.attributes.body_states org.current_body_state =
      some (body_state_used org.attributes.body_states org.current_body_state) := by
    unfold body_state_lookup body_state_used
    by_cases hc : 0 ≤ org.current_body_state ∧
        org.current_body_state.toNat < org.attributes.body_states.length
    · rw [if_pos hc, dif_pos hc, List.getElem?_eq_getElem hc.2]
      rfl
    · rw [if_neg hc, dif_neg hc]
      rcases hs : org.attributes.body_states with _ | ⟨b, bs⟩
      · exact absurd hs h
      · simp
  unfold move_phase
  rw [hl]
  rfl

theorem next_frame_eq (org : Organism) (rnd : FrameRand)
    (h : org.attributes.body_states ≠ []) :
    org.next_frame rnd = some (frame_rest (after_move org) rnd) := by
  rw [Organism.next_frame, move_phase_eq org h, Option.map_some']

theorem frame_rest_starved (org1 : Organism) (rnd : FrameRand) (h2 : org1.energy ≤ 0) :
    frame_rest org1 rnd = (org1, OrganismState.dead, none) := by
  unfold frame_rest
  rw [if_pos h2]

theorem frame_rest_oldage (org1 : Organism) (rnd : FrameRand) (h2 : ¬ org1.energy ≤ 0)
    (h3 : org1.age + 1 ≥ org1.attributes.max_age) :
    frame_rest org1 rnd = ({ org1 with age := org1.age + 1 }, OrganismState.dead, none) := by
  unfold frame_rest
  rw [if_neg h2]
  dsimp only
  rw [if_pos h3]

theorem frame_rest_alive (org1 : Organism) (rnd : FrameRand) (h2 : ¬ org1.energy ≤ 0)
    (h3 : ¬ org1.age + 1 ≥ org1.attributes.max_age) :
    (frame_rest org1 rnd).2.1 = OrganismState.alive ∧
    (frame_rest org1 rnd).1.age = org1.age + 1 := by
  unfold frame_rest
  rw [if_neg h2]
  dsimp only
  rw [if_neg h3]
  rcases mutation_phase_cases ({ org1 with age := org1.age + 1 }) rnd with hm | hm <;>
    rw [hm]
  all_goals split
  all_goals try split
  all_goals exact ⟨rfl, rfl⟩

theorem frame_rest_abort (org1 : Organism) (rnd : FrameRand) (h2 : ¬ org1.energy ≤ 0)
    (h3 : ¬ org1.age + 1 ≥ org1.attributes.max_age)
    (h4 : rnd.rep_roll < org1.attributes.reproduction_rate)
    (h5 : (mutate_states rnd.off_perturb
        (mutation_phase { org1 with age := org1.age + 1 } rnd).attributes.body_states).all
        (fun b => org1.body_squares.check_blueprint_validity b.squares) = false) :
    frame_rest org1 rnd =
      ({ mutation_phase { org1 with age := org1.age + 1 } rnd with
          energy := (mutation_phase { org1 with age := org1.age + 1 } rnd).energy -
            Int.tdiv (mutation_phase { org1 with age := org1.age + 1 } rnd).energy 2 },
        OrganismState.alive, none) := by
  unfold frame_rest
  rw [if_neg h2]
  dsimp only
  rw [if_neg h3, mutation_phase_rate]
  dsimp only
  rw [if_pos h4]
  dsimp only [Organism.reproduce, Organism.mutate]
  simp only [mutation_phase_body_squares]
  rw [if_neg (by simp [h5])]

theorem frame_rest_core (org1 : Organism) (rnd : FrameRand) :
    (frame_rest org1 rnd).1.id = org1.id ∧
    (frame_rest org1 rnd).1.genome = org1.genome ∧
    (frame_rest org1 rnd).1.body_squares = org1.body_squares ∧
    (frame_rest org1 rnd).1.location = org1.location ∧
    (frame_rest org1 rnd).1.current_body_state = org1.current_body_state ∧
    (frame_rest org1 rnd).1.attributes.max_energy = org1.attributes.max_energy ∧
    (frame_rest org1 rnd).1.attributes.max_age = org1.attributes.max_age ∧
    (frame_rest org1 rnd).1.attributes.max_size = org1.attributes.max_size ∧
    (frame_rest org1 rnd).1.attributes.reproduction_rate = org1.attributes.reproduction_rate ∧
    (frame_rest org1 rnd).1.attributes.mutation_rate = org1.attributes.mutation_rate ∧
    (frame_rest org1 rnd).1.attributes.puberty_age = org1.attributes.puberty_age ∧
    (frame_rest org1 rnd).1.attributes.metabolism = org1.attributes.metabolism := by
  unfold frame_rest
  split
  · exact ⟨rfl, rfl, rfl, rfl, rfl, rfl, rfl, rfl, rfl, rfl, rfl, rfl⟩
  · dsimp only
    split
    · exact ⟨rfl, rfl, rfl, rfl, rfl, rfl, rfl, rfl, rfl, rfl, rfl, rfl⟩
    · rcases mutation_phase_cases ({ org1 with age := org1.age + 1 }) rnd with hm | hm <;>
        rw [hm]
      all_goals split
      all_goals try split
      all_goals exact ⟨rfl, rfl, rfl, rfl, rfl, rfl, rfl, rfl, rfl, rfl, rfl, rfl⟩

theorem move_phase_none (org : Organism) (h : org.attributes.body_states = []) :
    move_phase org = none := by
  unfold move_phase body_state_lookup
  rw [h]
  rw [if_neg (by simp)]
  rfl

theorem move_phase_some (org o : Organism) (hm : move_phase org = some o) :
    o = after_move org ∧ org.attributes.body_states ≠ [] := by
  by_cases hempty : org.attributes.body_states = []
  · rw [move_phase_none org hempty] at hm
    exact absurd hm (by simp)
  · rw [move_phase_eq org hempty] at hm
    exact ⟨(Option.some.inj hm).symm, hempty⟩

/-- C3: after the metabolism drain, an energy of 0 or below ends the frame
at once: the report is Dead with no offspring, the age is not incremented,
the attributes (hence the body-state list) are untouched, the energy is
exactly the post-drain value (no reproduction charge), and the outcome does
not depend on any of the frame's random draws. -/
theorem starvation_stops_frame (org : Organism) (rnd rnd' : FrameRand)
    (h1 : org.attributes.body_states ≠ [])
    (h2 : org.energy - drain org ≤ 0) :
    org.next_frame rnd = some (after_move org, OrganismState.dead, none) ∧
    (after_move org).age = org.age ∧
    (after_move org).energy = org.energy - drain org ∧
    (after_move org).attributes = org.attributes ∧
    org.next_frame rnd' = org.next_frame rnd := by
  have key : ∀ r : FrameRand,
      org.next_frame r = some (after_move org, OrganismState.dead, none) := by
    intro r
    rw [next_frame_eq org r h1]
    rw [frame_rest_starved (after_move org) r (show (after_move org).energy ≤ 0 from h2)]
  exact ⟨key rnd, rfl, rfl, rfl, (key rnd').trans (key rnd).symm⟩

/-- Witness for C3 at a concrete organism with zero energy. -/
theorem starvation_stops_frame_witness :
    (c3_org.attributes.body_states ≠ [] ∧ c3_org.energy - drain c3_org ≤ 0) ∧
    (c3_org.next_frame w_rnd = some (after_move c3_org, OrganismState.dead, none) ∧
     (after_move c3_org).age = c3_org.age ∧
     (after_move c3_org).energy = c3_org.energy - drain c3_org ∧
     (after_move c3_org).attributes = c3_org.attributes ∧
     c3_org.next_frame c1_rnd = c3_org.next_frame w_rnd) := by
  have hne : c3_org.attributes.body_states ≠ [] := by simp [c3_org, w_org]
  have hen : c3_org.energy - drain c3_org ≤ 0 := by
    norm_num [c3_org, w_org, drain, truncQ, w_unit_body]
  exact ⟨⟨hne, hen⟩, starvation_stops_frame c3_org w_rnd c1_rnd hne hen⟩

/-- C8: once the starvation check is survived, the age is incremented and
the frame reports Dead with no offspring exactly when the new age reaches
`max_age`; hence an organism at `max_age - 1` dies of old age on the next
frame. -/
theorem old_age_death (org : Organism) (rnd : FrameRand)
    (h1 : org.attributes.body_states ≠ [])
    (h2 : 0 < org.energy - drain org) :
    ∃ org' st off, org.next_frame rnd = some (org', st, off) ∧
      org'.age = org.age + 1 ∧
      ((st = OrganismState.dead ∧ off = none) ↔ org.attributes.max_age ≤ org.age + 1) := by
  have hnf := next_frame_eq org rnd h1
  have h2' : ¬ (after_move org).energy ≤ 0 := not_le.mpr h2
  by_cases h3 : (after_move org).age + 1 ≥ (after_move org).attributes.max_age
  · rw [frame_rest_oldage (after_move org) rnd h2' h3] at hnf
    refine ⟨_, _, _, hnf, rfl, ?_⟩
    exact ⟨fun _ => h3, fun _ => ⟨rfl, rfl⟩⟩
  · obtain ⟨hst, hage⟩ := frame_rest_alive (after_move org) rnd h2' h3
    refine ⟨(frame_rest (after_move org) rnd).1, (frame_rest (after_move org) rnd).2.1,
      (frame_rest (after_move org) rnd).2.2, hnf, hage, ?_, ?_⟩
    · intro hcon
      exact absurd (hst.symm.trans hcon.1) (by simp)
    · intro hma
      exact absurd hma h3

/-- Witness for C8 at a concrete surviving organism. -/
theorem old_age_death_witness :
    (w_org.attributes.body_states ≠ [] ∧ 0 < w_org.energy - drain w_org) ∧
    (∃ org' st off, w_org.next_frame w_rnd = some (org', st, off) ∧
      org'.age = w_org.age + 1 ∧
      ((st = OrganismState.dead ∧ off = none) ↔ w_org.attributes.max_age ≤ w_org.age + 1)) := by
  have hne : w_org.attributes.body_states ≠ [] := by simp [w_org]
  have hen : 0 < w_org.energy - drain w_org := by
    norm_num [w_org, drain, truncQ, w_unit_body]
  exact ⟨⟨hne, hen⟩, old_age_death w_org w_rnd hne hen⟩

/-- C6: with a non-empty body-state list, the movement step computes the
displacement from the current body against the body-state entry at
`current_body_state` (`body_state_used` falls back to entry 0 when the index
is out of range), adds it to the location, and the index is advanced by one,
wrapping to 0 after the last entry — for an in-range index this is exactly
`(i + 1) mod length`. -/
theorem movement_uses_state_and_cycles (org : Organism) (rnd : FrameRand)
    (h1 : org.attributes.body_states ≠ []) :
    ∃ org' st off, org.next_frame rnd = some (org', st, off) ∧
      org'.location = (org.location.1 + (calculate_movement org.body_squares
          (body_state_used org.attributes.body_states org.current_body_state)).1,
        org.location.2 + (calculate_movement org.body_squares
          (body_state_used org.attributes.body_states org.current_body_state)).2) ∧
      org'.current_body_state =
        (if org.current_body_state < (org.attributes.body_states.length : ℤ) - 1 then
          org.current_body_state + 1 else 0) ∧
      (0 ≤ org.current_body_state →
        org.current_body_state < (org.attributes.body_states.length : ℤ) →
        org'.current_body_state =
          (org.current_body_state + 1) % (org.attributes.body_states.length : ℤ)) := by
  have hnf := next_frame_eq org rnd h1
  obtain ⟨_, _, _, hloc, hcsb, _⟩ := frame_rest_core (after_move org) rnd
  refine ⟨(frame_rest (after_move org) rnd).1, (frame_rest (after_move org) rnd).2.1,
    (frame_rest (after_move org) rnd).2.2, hnf, hloc, hcsb, ?_⟩
  intro hge hlt
  rw [hcsb]
  show (if org.current_body_state < (org.attributes.body_states.length : ℤ) - 1
      then org.current_body_state + 1 else 0) = _
  by_cases hcase : org.current_body_state < (org.attributes.body_states.length : ℤ) - 1
  · rw [if_pos hcase, Int.emod_eq_of_lt (by omega) (by omega)]
  · rw [if_neg hcase]
    have heq : org.current_body_state = (org.attributes.body_states.length : ℤ) - 1 := by
      omega
    have hone : (org.attributes.body_states.length : ℤ) - 1 + 1 =
        (org.attributes.body_states.length : ℤ) := by ring
    rw [heq, hone, Int.emod_self]

/-- Witness for C6 at a concrete organism with one body state. -/
theorem movement_uses_state_and_cycles_witness :
    w_org.attributes.body_states ≠ [] ∧
    (∃ org' st off, w_org.next_frame w_rnd = some (org', st, off) ∧
      org'.location = (w_org.location.1 + (calculate_movement w_org.body_squares
          (body_state_used w_org.attributes.body_states w_org.current_body_state)).1,
        w_org.location.2 + (calculate_movement w_org.body_squares
          (body_state_used w_org.attributes.body_states w_org.current_body_state)).2) ∧
      org'.current_body_state =
        (if w_org.current_body_state < (w_org.attributes.body_states.length : ℤ) - 1 then
          w_org.current_body_state + 1 else 0) ∧
      (0 ≤ w_org.current_body_state →
        w_org.current_body_state < (w_org.attributes.body_states.length : ℤ) →
        org'.current_body_state =
          (w_org.current_body_state + 1) % (w_org.attributes.body_states.length : ℤ))) := by
  have hne : w_org.attributes.body_states ≠ [] := by simp [w_org]
  exact ⟨hne, movement_uses_state_and_cycles w_org w_rnd hne⟩

/-- C10: whatever the outcome, `next_frame` never changes the organism's id,
genome, current body geometry, or any scalar attribute — only location,
energy, age, the body-state index, and (through mutation) the attribute
body-state list can change; in particular the current body is never advanced
to the next body state. -/
theorem frame_preserves_core (org : Organism) (rnd : FrameRand) (org' : Organism)
    (st : OrganismState) (off : Option Organism)
    (h : org.next_frame rnd = some (org', st, off)) :
    core_unchanged org org' := by
  rcases hmp : move_phase org with _ | o1
  · rw [Organism.next_frame, hmp] at h
    exact absurd h (by simp)
  · rw [Organism.next_frame, hmp, Option.map_some'] at h
    obtain ⟨ho, hne⟩ := move_phase_some org o1 hmp
    subst ho
    have h1 : (frame_rest (after_move org) rnd).1 = org' :=
      congrArg Prod.fst (Option.some.inj h)
    obtain ⟨f1, f2, f3, _, _, f6, f7, f8, f9, f10, f11, f12⟩ :=
      frame_rest_core (after_move org) rnd
    rw [← h1]
    exact ⟨f1, f2, f3, f6, f7, f8, f9, f10, f11, f12⟩

/-- Witness for C10 at a concrete frame step. -/
theorem frame_preserves_core_witness :
    (∃ org' st off, w_org.next_frame w_rnd = some (org', st, off) ∧
      core_unchanged w_org org') := by
  have hne : w_org.attributes.body_states ≠ [] := by simp [w_org]
  have hnf := next_frame_eq w_org w_rnd hne
  exact ⟨(frame_rest (after_move w_org) w_rnd).1, (frame_rest (after_move w_org) w_rnd).2.1,
    (frame_rest (after_move w_org) w_rnd).2.2, hnf,
    frame_preserves_core w_org w_rnd _ _ _ hnf⟩

/-- C1 (amended): when the reproduction roll passes and a candidate
offspring body fails the validity check, the frame returns Alive with no
offspring, but the parent's energy IS reduced by the offspring's energy
(half of the post-drain energy, truncated): the source subtracts the cost
before the validity gate and never refunds it on the abort path. -/
theorem abort_still_charges (org : Organism) (rnd : FrameRand)
    (h1 : org.attributes.body_states ≠ [])
    (h2 : 0 < org.energy - drain org)
    (h3 : org.age + 1 < org.attributes.max_age)
    (h4 : rnd.rep_roll < org.attributes.reproduction_rate)
    (h5 : (frame_candidate org rnd).attributes.body_states.all
        (fun b => org.body_squares.check_blueprint_validity b.squares) = false) :
    ∃ org', org.next_frame rnd = some (org', OrganismState.alive, none) ∧
      org'.energy = (org.energy - drain org) - Int.tdiv (org.energy - drain org) 2 := by
  have hnf := next_frame_eq org rnd h1
  rw [frame_rest_abort (after_move org) rnd (not_le.mpr h2) (not_le.mpr h3) h4 h5] at hnf
  refine ⟨_, hnf, ?_⟩
  simp only [mutation_phase_energy]
  rfl

/-- C1 (counterexample to the claim as stated): at `c1_org`/`c1_rnd` the
reproduction roll passes (0 < 1/2) and the only candidate body fails the
validity check, the frame returns Alive with no offspring — but the parent's
energy drops from the post-drain 100 to 50: the aborted offspring's cost IS
charged, contradicting "the parent's energy is unchanged". -/
theorem abort_energy_cex :
    frame_verdict (c1_org.next_frame c1_rnd) = some (OrganismState.alive, none) ∧
    frame_energy (c1_org.next_frame c1_rnd) = some 50 ∧
    c1_org.energy - drain c1_org = 100 ∧ ((50 : ℤ) = 100 → False) := by
  have hne : c1_org.attributes.body_states ≠ [] := by simp [c1_org, w_org]
  have hnf := next_frame_eq c1_org c1_rnd hne
  have h2 : ¬ (after_move c1_org).energy ≤ 0 := by
    norm_num [after_move, drain, truncQ, c1_org, w_org, w_unit_body]
  have h3 : ¬ (after_move c1_org).age + 1 ≥ (after_move c1_org).attributes.max_age := by
    norm_num [after_move, c1_org, w_org]
  have h4 : c1_rnd.rep_roll < (after_move c1_org).attributes.reproduction_rate := by
    norm_num [after_move, c1_rnd, w_rnd, c1_org, w_org]
  have hm : mutation_phase
      { after_move c1_org with age := (after_move c1_org).age + 1 } c1_rnd =
      { after_move c1_org with age := (after_move c1_org).age + 1 } := by
    unfold mutation_phase
    rw [if_neg (by norm_num [after_move, c1_rnd, w_rnd, c1_org, w_org])]
  have h5 : (mutate_states c1_rnd.off_perturb
      (mutation_phase { after_move c1_org with age := (after_move c1_org).age + 1 }
        c1_rnd).attributes.body_states).all
      (fun b => (after_move c1_org).body_squares.check_blueprint_validity b.squares) =
      false := by
    rw [hm]
    norm_num [after_move, c1_org, w_org, c1_rnd, w_rnd, zero_perturb, mutate_states,
      w_far_body, w_unit_body, Body.check_blueprint_validity, Body.is_adjacent,
      List.mapIdx_cons, List.mapIdx_nil]
  rw [frame_rest_abort (after_move c1_org) c1_rnd h2 h3 h4 h5] at hnf
  refine ⟨?_, ?_, ?_, by norm_num⟩
  · rw [hnf]
    rfl
  · rw [frame_energy, hnf, Option.map_some']
    simp only [hm, mutation_phase_energy]
    norm_num [after_move, drain, truncQ, c1_org, w_org, w_unit_body]
    decide
  · norm_num [drain, truncQ, c1_org, w_org, w_unit_body]

/-- Witness for the amended C1 at the concrete aborting reproduction. -/
theorem abort_still_charges_witness :
    (c1_org.attributes.body_states ≠ [] ∧
     0 < c1_org.energy - drain c1_org ∧
     c1_org.age + 1 < c1_org.attributes.max_age ∧
     c1_rnd.rep_roll < c1_org.attributes.reproduction_rate ∧
     (frame_candidate c1_org c1_rnd).attributes.body_states.all
       (fun b => c1_org.body_squares.check_blueprint_validity b.squares) = false) ∧
    (∃ org', c1_org.next_frame c1_rnd = some (org', OrganismState.alive, none) ∧
      org'.energy = (c1_org.energy - drain c1_org) -
        Int.tdiv (c1_org.energy - drain c1_org) 2) := by
  have h1 : c1_org.attributes.body_states ≠ [] := by simp [c1_org, w_org]
  have h2 : 0 < c1_org.energy - drain c1_org := by
    norm_num [drain, truncQ, c1_org, w_org, w_unit_body]
  have h3 : c1_org.age + 1 < c1_org.attributes.max_age := by norm_num [c1_org, w_org]
  have h4 : c1_rnd.rep_roll < c1_org.attributes.reproduction_rate := by
    norm_num [c1_rnd, w_rnd, c1_org, w_org]
  have hm : mutation_phase
      { after_move c1_org with age := (after_move c1_org).age + 1 } c1_rnd =
      { after_move c1_org with age := (after_move c1_org).age + 1 } := by
    unfold mutation_phase
    rw [if_neg (by norm_num [after_move, c1_rnd, w_rnd, c1_org, w_org])]
  have h5 : (frame_candidate c1_org c1_rnd).attributes.body_states.all
      (fun b => c1_org.body_squares.check_blueprint_validity b.squares) = false := by
    unfold frame_candidate
    rw [hm]
    dsimp only [Organism.reproduce, Organism.mutate]
    norm_num [after_move, c1_org, w_org, c1_rnd, w_rnd, zero_perturb, mutate_states,
      w_far_body, w_unit_body, Body.check_blueprint_validity, Body.is_adjacent,
      List.mapIdx_cons, List.mapIdx_nil]
  exact ⟨⟨h1, h2, h3, h4, h5⟩, abort_still_charges c1_org c1_rnd h1 h2 h3 h4 h5⟩

theorem applyGene_max_energy (a : Attribute) (g : Gene) :
    (applyGene a g).max_energy = a.max_energy + gene_d_max_energy g := by
  cases h : g.attribute_type <;> simp [applyGene, h, gene_d_max_energy]

theorem applyGene_max_age (a : Attribute) (g : Gene) :
    (applyGene a g).max_age = a.max_age + gene_d_max_age g := by
  cases h : g.attribute_type <;> simp [applyGene, h, gene_d_max_age]

theorem applyGene_max_size (a : Attribute) (g : Gene) :
    (applyGene a g).max_size = a.max_size + gene_d_max_size g := by
  cases h : g.attribute_type <;> simp [applyGene, h, gene_d_max_size]

theorem applyGene_reproduction_rate (a : Attribute) (g : Gene) :
    (applyGene a g).reproduction_rate =
      a.reproduction_rate + gene_d_reproduction_rate g := by
  cases h : g.attribute_type <;> simp [applyGene, h, gene_d_reproduction_rate]

theorem applyGene_mutation_rate (a : Attribute) (g : Gene) :
    (applyGene a g).mutation_rate = a.mutation_rate + gene_d_mutation_rate g := by
  cases h : g.attribute_type <;> simp [applyGene, h, gene_d_mutation_rate]

theorem applyGene_puberty_age (a : Attribute) (g : Gene) :
    (applyGene a g).puberty_age = a.puberty_age + gene_d_puberty_age g := by
  cases h : g.attribute_type <;> simp [applyGene, h, gene_d_puberty_age]

theorem applyGene_metabolism (a : Attribute) (g : Gene) :
    (applyGene a g).metabolism = a.metabolism + gene_d_metabolism g := by
  cases h : g.attribute_type <;> simp [applyGene, h, gene_d_metabolism]

theorem applyGene_body_states (a : Attribute) (g : Gene) :
    (applyGene a g).body_states = a.body_states ++ gene_bodies g := by
  cases h : g.attribute_type <;> simp [applyGene, h, gene_bodies]

theorem fold_max_energy (genes : List Gene) (a : Attribute) :
    (genes.foldl applyGene a).max_energy =
      a.max_energy + (genes.map gene_d_max_energy).sum := by
  induction genes generalizing a with
  | nil => simp
  | cons g gs ih =>
    rw [List.foldl_cons, ih, applyGene_max_energy, List.map_cons, List.sum_cons, add_assoc]

theorem fold_max_age (genes : List Gene) (a : Attribute) :
    (genes.foldl applyGene a).max_age = a.max_age + (genes.map gene_d_max_age).sum := by
  induction genes generalizing a with
  | nil => simp
  | cons g gs ih =>
    rw [List.foldl_cons, ih, applyGene_max_age, List.map_cons, List.sum_cons, add_assoc]

theorem fold_max_size (genes : List Gene) (a : Attribute) :
    (genes.foldl applyGene a).max_size = a.max_size + (genes.map gene_d_max_size).sum := by
  induction genes generalizing a with
  | nil => simp
  | cons g gs ih =>
    rw [List.foldl_cons, ih, applyGene_max_size, List.map_cons, List.sum_cons, add_assoc]

theorem fold_reproduction_rate (genes : List Gene) (a : Attribute) :
    (genes.foldl applyGene a).reproduction_rate =
      a.reproduction_rate + (genes.map gene_d_reproduction_rate).sum := by
  induction genes generalizing a with
  | nil => simp
  | cons g gs ih =>
    rw [List.foldl_cons, ih, applyGene_reproduction_rate, List.map_cons, List.sum_cons,
      add_assoc]

theorem fold_mutation_rate (genes : List Gene) (a : Attribute) :
    (genes.foldl applyGene a).mutation_rate =
      a.mutation_rate + (genes.map gene_d_mutation_rate).sum := by
  induction genes generalizing a with
  | nil => simp
  | cons g gs ih =>
    rw [List.foldl_cons, ih, applyGene_mutation_rate, List.map_cons, List.sum_cons,
      add_assoc]

theorem fold_puberty_age (genes : List Gene) (a : Attribute) :
    (genes.foldl applyGene a).puberty_age =
      a.puberty_age + (genes.map gene_d_puberty_age).sum := by
  induction genes generalizing a with
  | nil => simp
  | cons g gs ih =>
    rw [List.foldl_cons, ih, applyGene_puberty_age, List.map_cons, List.sum_cons, add_assoc]

theorem fold_metabolism (genes : List Gene) (a : Attribute) :
    (genes.foldl applyGene a).metabolism =
      a.metabolism + (genes.map gene_d_metabolism).sum := by
  induction genes generalizing a with
  | nil => simp
  | cons g gs ih =>
    rw [List.foldl_cons, ih, applyGene_metabolism, List.map_cons, List.sum_cons, add_assoc]

theorem fold_body_states (genes : List Gene) (a : Attribute) :
    (genes.foldl applyGene a).body_states =
      a.body_states ++ genes.flatMap gene_bodies := by
  induction genes generalizing a with
  | nil => simp
  | cons g gs ih =>
    rw [List.foldl_cons, ih, applyGene_body_states, List.flatMap_cons, List.append_assoc]

/-- C7: folding a genome with exactly one gene of each `AttributeType` onto
the defaults yields defaults plus each delta, whatever the order of the
genes (the Perm hypothesis); the body-state list is the concatenation of the
appended body lists in genome order (here the single appended list). -/
theorem gene_fold_defaults_plus_deltas (dE dA dS dP : ℤ) (dR dM dMet : ℚ)
    (bs : List Body) (genes : List Gene)
    (hperm : genes.Perm (one_each_genome dE dA dS dP dR dM dMet bs)) :
    (apply_gene_effects Attribute.default_attributes ⟨genes⟩).max_energy = 1000 + dE ∧
    (apply_gene_effects Attribute.default_attributes ⟨genes⟩).max_age = 1000 + dA ∧
    (apply_gene_effects Attribute.default_attributes ⟨genes⟩).max_size = 1000 + dS ∧
    (apply_gene_effects Attribute.default_attributes ⟨genes⟩).reproduction_rate =
      1 / 10 + dR ∧
    (apply_gene_effects Attribute.default_attributes ⟨genes⟩).mutation_rate = 1 / 10 + dM ∧
    (apply_gene_effects Attribute.default_attributes ⟨genes⟩).puberty_age = 100 + dP ∧
    (apply_gene_effects Attribute.default_attributes ⟨genes⟩).metabolism = 1 / 10 + dMet ∧
    (apply_gene_effects Attribute.default_attributes ⟨genes⟩).body_states =
      genes.flatMap gene_bodies := by
  simp only [apply_gene_effects]
  refine ⟨?_, ?_, ?_, ?_, ?_, ?_, ?_, ?_⟩
  · rw [fold_max_energy, (hperm.map gene_d_max_energy).sum_eq]
    simp [one_each_genome, gene_d_max_energy, Attribute.default_attributes]
  · rw [fold_max_age, (hperm.map gene_d_max_age).sum_eq]
    simp [one_each_genome, gene_d_max_age, Attribute.default_attributes]
  · rw [fold_max_size, (hperm.map gene_d_max_size).sum_eq]
    simp [one_each_genome, gene_d_max_size, Attribute.default_attributes]
  · rw [fold_reproduction_rate, (hperm.map gene_d_reproduction_rate).sum_eq]
    simp [one_each_genome, gene_d_reproduction_rate, Attribute.default_attributes]
  · rw [fold_mutation_rate, (hperm.map gene_d_mutation_rate).sum_eq]
    simp [one_each_genome, gene_d_mutation_rate, Attribute.default_attributes]
  · rw [fold_puberty_age, (hperm.map gene_d_puberty_age).sum_eq]
    simp [one_each_genome, gene_d_puberty_age, Attribute.default_attributes]
  · rw [fold_metabolism, (hperm.map gene_d_metabolism).sum_eq]
    simp [one_each_genome, gene_d_metabolism, Attribute.default_attributes]
  · rw [fold_body_states]
    simp [Attribute.default_attributes]

/-- Witness for C7: the one-of-each genome in reverse order still yields
defaults plus deltas, and its body-state list in genome order. -/
theorem gene_fold_defaults_plus_deltas_witness :
    ((one_each_genome 1 2 3 4 (1 / 2) (1 / 3) (1 / 4) [w_unit_body]).reverse.Perm
      (one_each_genome 1 2 3 4 (1 / 2) (1 / 3) (1 / 4) [w_unit_body])) ∧
    ((apply_gene_effects Attribute.default_attributes
        ⟨(one_each_genome 1 2 3 4 (1 / 2) (1 / 3) (1 / 4) [w_unit_body]).reverse⟩).max_energy =
      1000 + 1 ∧
     (apply_gene_effects Attribute.default_attributes
        ⟨(one_each_genome 1 2 3 4 (1 / 2) (1 / 3) (1 / 4) [w_unit_body]).reverse⟩).max_age =
      1000 + 2 ∧
     (apply_gene_effects Attribute.default_attributes
        ⟨(one_each_genome 1 2 3 4 (1 / 2) (1 / 3) (1 / 4) [w_unit_body]).reverse⟩).max_size =
      1000 + 3 ∧
     (apply_gene_effects Attribute.default_attributes
        ⟨(one_each_genome 1 2 3 4 (1 / 2) (1 / 3)
          (1 / 4) [w_unit_body]).reverse⟩).reproduction_rate = 1 / 10 + 1 / 2 ∧
     (apply_gene_effects Attribute.default_attributes
        ⟨(one_each_genome 1 2 3 4 (1 / 2) (1 / 3)
          (1 / 4) [w_unit_body]).reverse⟩).mutation_rate = 1 / 10 + 1 / 3 ∧
     (apply_gene_effects Attribute.default_attributes
        ⟨(one_each_genome 1 2 3 4 (1 / 2) (1 / 3)
          (1 / 4) [w_unit_body]).reverse⟩).puberty_age = 100 + 4 ∧
     (apply_gene_effects Attribute.default_attributes
        ⟨(one_each_genome 1 2 3 4 (1 / 2) (1 / 3)
          (1 / 4) [w_unit_body]).reverse⟩).metabolism = 1 / 10 + 1 / 4 ∧
     (apply_gene_effects Attribute.default_attributes
        ⟨(one_each_genome 1 2 3 4 (1 / 2) (1 / 3)
          (1 / 4) [w_unit_body]).reverse⟩).body_states =
      (one_each_genome 1 2 3 4 (1 / 2) (1 / 3)
        (1 / 4) [w_unit_body]).reverse.flatMap gene_bodies) :=
  ⟨List.reverse_perm _,
    gene_fold_defaults_plus_deltas 1 2 3 4 (1 / 2) (1 / 3) (1 / 4) [w_unit_body]
      (one_each_genome 1 2 3 4 (1 / 2) (1 / 3) (1 / 4) [w_unit_body]).reverse
      (List.reverse_perm _)⟩
